import Mathlib

/-!
Verification of the red-black tree implementation in src/src/slab.rs
(indexed-arena backend), src/src/pointer.rs (direct-ownership backend),
src/src/redblack.rs (trait) and src/slab-red-black/src/lib.rs (older
draft of the arena backend).

The imperative Rust code is shallowly embedded: the arena is a total
function from indices to node records together with a free list, every
loop is written as fuel-bounded structural recursion returning none on
fuel exhaustion, and each statement of the source is transcribed in
order.
-/

namespace SlabRB

/-- The pseudo-handle NULL, from src/src/slab.rs line 1: the all-ones
usize value, never a valid arena index. -/
def NULL : Nat := 2 ^ 64 - 1

/-- Node record, from struct Node in src/src/slab.rs: parent handle,
two child handles addressed by direction (0 = left, 1 = right), key,
and a red/black color bit. -/
structure Node (T : Type) where
  parent : Nat
  children : Nat × Nat
  key : T
  red : Bool

variable {T : Type}

/-- Read the child handle on side d, mirroring children[dir] in the
source (dir is always 0 or 1 there). -/
def Node.child (n : Node T) (d : Nat) : Nat :=
  if d = 0 then n.children.1 else n.children.2

/-- Write the child handle on side d, mirroring children[dir] = v. -/
def Node.setChild (n : Node T) (d : Nat) (v : Nat) : Node T :=
  if d = 0 then { n with children := (v, n.children.2) }
  else { n with children := (n.children.1, v) }

/-- Node constructor, from Node::new in src/src/slab.rs: parent and
both children point at the given sentinel, color black. -/
def Node.new (key : T) (nil_sentinel : Nat) : Node T :=
  { parent := nil_sentinel, children := (nil_sentinel, nil_sentinel),
    key := key, red := false }

/-- State of a SlabRedBlack tree: the arena contents as a total
function on indices (vacant slots hold junk that the algorithm never
reads), the free list and high-water mark of the slab allocator, the
root handle and the sentinel handle. -/
structure SlabState (T : Type) where
  nodes : Nat → Node T
  vacant : List Nat
  len : Nat
  root : Nat
  nil : Nat

/-- Read the node stored at index i (slab[i] in the source). -/
def getN (s : SlabState T) (i : Nat) : Node T := s.nodes i

/-- Overwrite the node stored at index i. -/
def setNode (s : SlabState T) (i : Nat) (n : Node T) : SlabState T :=
  { s with nodes := fun j => if j = i then n else s.nodes j }

/-- slab[i].parent = v. -/
def updParent (s : SlabState T) (i : Nat) (v : Nat) : SlabState T :=
  setNode s i { getN s i with parent := v }

/-- slab[i].children[d] = v. -/
def updChild (s : SlabState T) (i : Nat) (d : Nat) (v : Nat) : SlabState T :=
  setNode s i ((getN s i).setChild d v)

/-- slab[i].red = b. -/
def updRed (s : SlabState T) (i : Nat) (b : Bool) : SlabState T :=
  setNode s i { getN s i with red := b }

/-- slab[i].key = k. -/
def updKey (s : SlabState T) (i : Nat) (k : T) : SlabState T :=
  setNode s i { getN s i with key := k }

/-- Modelled from the spec: the external slab crate's Slab::insert
(section 4.1, indexed-arena variant: a growable slot collection whose
deallocation returns the slot to a free list for reuse, with a reused
slot fully reinitialized before exposure).  Allocation pops the free
list if possible, else appends at the high-water mark. -/
def slabAlloc (s : SlabState T) (n : Node T) : Nat × SlabState T :=
  match s.vacant with
  | i :: rest => (i, { setNode s i n with vacant := rest })
  | [] => (s.len, { setNode s s.len n with len := s.len + 1 })

/-- Modelled from the spec: the external slab crate's Slab::remove
(section 4.1): returns the slot's contents and pushes the slot onto
the free list. -/
def slabRemove (s : SlabState T) (i : Nat) : Node T × SlabState T :=
  (getN s i, { s with vacant := i :: s.vacant })

/-- SlabRedBlack::new from src/src/slab.rs: an empty slab, then the
sentinel node is allocated (receiving index 0) with key left
uninitialized (modelled as the Inhabited default) and parent and
children equal to NULL; root and nil_sentinel are set to it. -/
def new [Inhabited T] : SlabState T :=
  let s0 : SlabState T :=
    { nodes := fun _ => Node.new default NULL, vacant := [], len := 0,
      root := NULL, nil := NULL }
  let a := slabAlloc s0 (Node.new default NULL)
  { a.2 with nil := a.1, root := a.1 }

/-- SlabRedBlack::rotate from src/src/slab.rs lines 38-59, transcribed
statement by statement: promotes x's (dir xor 1)-side child y into x's
place. -/
def rotate (s : SlabState T) (x : Nat) (dir : Nat) : SlabState T :=
  let y := (getN s x).child (dir ^^^ 1)
  let s := updChild s x (dir ^^^ 1) ((getN s y).child dir)
  let y_chld := (getN s y).child dir
  let s := if y_chld ≠ s.nil then updParent s y_chld x else s
  let s := updParent s y (getN s x).parent
  let x_parent := (getN s x).parent
  let s :=
    if x_parent = s.nil then { s with root := y }
    else
      let sib_dir := if (getN s x_parent).child 0 = x then 0 else 1
      updChild s x_parent sib_dir y
  let s := updChild s y dir x
  updParent s x y

/-- Loop of SlabRedBlack::tree_minimum (src/src/slab.rs lines 61-68):
while l is not the sentinel, descend left.  Fuel-bounded. -/
def treeMinimumGo (s : SlabState T) : Nat → Nat → Nat → Option Nat
  | 0, _, _ => none
  | fuel + 1, x, l =>
    if l ≠ s.nil then treeMinimumGo s fuel l ((getN s l).child 0)
    else some x

/-- SlabRedBlack::tree_minimum from src/src/slab.rs lines 61-68. -/
def tree_minimum (fuel : Nat) (s : SlabState T) (x : Nat) : Option Nat :=
  treeMinimumGo s fuel x ((getN s x).child 0)

/-- Parent-walk loop of SlabRedBlack::tree_successor (src/src/slab.rs
lines 74-79). -/
def treeSuccessorGo (s : SlabState T) : Nat → Nat → Nat → Option Nat
  | 0, _, _ => none
  | fuel + 1, x, y =>
    if y ≠ s.nil ∧ x = (getN s y).child 1 then
      treeSuccessorGo s fuel y (getN s y).parent
    else some y

/-- SlabRedBlack::tree_successor from src/src/slab.rs lines 70-80.
Note the source passes x itself (not x's right child) to tree_minimum;
the transcription preserves that. -/
def tree_successor (fuel : Nat) (s : SlabState T) (x : Nat) : Option Nat :=
  if (getN s x).child 1 ≠ s.nil then tree_minimum fuel s x
  else treeSuccessorGo s fuel x (getN s x).parent

/-- Loop of SlabRedBlack::insert_fixup (src/src/slab.rs lines 86-117),
carrying the current z and the loop variable p; one fuel unit per
iteration. -/
def insertFixupGo [LinearOrder T] :
    Nat → SlabState T → Nat → Nat → Option (SlabState T)
  | 0, _, _, _ => none
  | fuel + 1, s, z, p =>
    if (getN s p).red then
      let p := (getN s z).parent
      let pp := (getN s p).parent
      let dir := if (getN s pp).child 0 = p then 1 else 0
      let y := (getN s pp).child dir
      if (getN s y).red then
        let s := updRed s p false
        let s := updRed s y false
        let s := updRed s pp true
        let z := pp
        let p := (getN s z).parent
        insertFixupGo fuel s z p
      else
        let szp :=
          if z = (getN s p).child dir then
            let z := p
            let s := rotate s z (dir ^^^ 1)
            let p := (getN s z).parent
            let pp := (getN s p).parent
            (s, z, p, pp)
          else (s, z, p, pp)
        let s := szp.1
        let z := szp.2.1
        let p := szp.2.2.1
        let pp := szp.2.2.2
        let s := updRed s p false
        let s := updRed s pp true
        let s := rotate s pp dir
        insertFixupGo fuel s z p
    else some s

/-- SlabRedBlack::insert_fixup from src/src/slab.rs lines 82-121
(the loop, then the root is unconditionally blackened). -/
def insert_fixup [LinearOrder T] (fuel : Nat) (s : SlabState T) (z : Nat) :
    Option (SlabState T) :=
  match insertFixupGo fuel s z (getN s z).parent with
  | none => none
  | some s => some (updRed s s.root false)

/-- One iteration of the SlabRedBlack::delete_fixup loop body
(src/src/slab.rs lines 126-159), transcribed statement by statement;
returns the state together with the next value of x. -/
def deleteFixupIter [LinearOrder T] (s : SlabState T) (x : Nat) :
    SlabState T × Nat :=
  let p := (getN s x).parent
  let dir := if x = (getN s p).child 0 then 1 else 0
  let w := (getN s p).child dir
  let sw :=
    if (getN s w).red then
      let s := updRed s w false
      let s := updRed s p true
      let s := rotate s p (dir ^^^ 1)
      (s, (getN s p).child dir)
    else (s, w)
  let s := sw.1
  let w := sw.2
  let wl := (getN s w).child 0
  let wr := (getN s w).child 1
  if (getN s wl).red = false ∧ (getN s wr).red = false then
    (updRed s w true, p)
  else
    let wc := (getN s w).child dir
    let wo := (getN s w).child (dir ^^^ 1)
    let swc :=
      if (getN s wc).red = false then
        let s := updRed s wo false
        let s := updRed s w true
        let s := rotate s w dir
        let w := (getN s p).child dir
        (s, w, (getN s w).child dir)
      else (s, w, wc)
    let s := swc.1
    let w := swc.2.1
    let wc := swc.2.2
    let s := updRed s w (getN s p).red
    let s := updRed s p false
    let s := updRed s wc false
    let s := rotate s p (dir ^^^ 1)
    (s, s.root)

/-- Loop of SlabRedBlack::delete_fixup (src/src/slab.rs lines
125-160); one fuel unit per iteration.  On exit, x is blackened
(line 163). -/
def deleteFixupGo [LinearOrder T] :
    Nat → SlabState T → Nat → Option (SlabState T)
  | 0, _, _ => none
  | fuel + 1, s, x =>
    if x ≠ s.root ∧ (getN s x).red = false then
      let r := deleteFixupIter s x
      deleteFixupGo fuel r.1 r.2
    else some (updRed s x false)

/-- SlabRedBlack::delete_fixup from src/src/slab.rs lines 123-164. -/
def delete_fixup [LinearOrder T] (fuel : Nat) (s : SlabState T) (x : Nat) :
    Option (SlabState T) :=
  deleteFixupGo fuel s x

/-- Loop of SlabRedBlack::search_ (src/src/slab.rs lines 169-175):
some (some i) = found at i, some none = reached the sentinel (absent),
none = out of fuel. -/
def searchGo [LinearOrder T] :
    Nat → SlabState T → T → Nat → Option (Option Nat)
  | 0, _, _, _ => none
  | fuel + 1, s, key, curr =>
    if curr ≠ s.nil then
      if (getN s curr).key = key then some (some curr)
      else
        let direction := if (getN s curr).key < key then 1 else 0
        searchGo fuel s key ((getN s curr).child direction)
    else some none

/-- SlabRedBlack::search_ from src/src/slab.rs lines 166-177. -/
def search_ [LinearOrder T] (fuel : Nat) (s : SlabState T) (key : T) :
    Option (Option Nat) :=
  searchGo fuel s key s.root

/-- RedBlack::delete for SlabRedBlack, from src/src/slab.rs lines
273-319, transcribed statement by statement (including the final
slab.remove of y and the key swap into z when y differs from z). -/
def delete [LinearOrder T] (fuel : Nat) (s : SlabState T) (key : T) :
    Option (SlabState T) :=
  match search_ fuel s key with
  | none => none
  | some none => some s
  | some (some z) =>
    match
      (if (getN s z).child 0 = s.nil ∨ (getN s z).child 1 = s.nil then some z
       else tree_successor fuel s z) with
    | none => none
    | some y =>
      let dir := if (getN s y).child 0 ≠ s.nil then 0 else 1
      let x := (getN s y).child dir
      let yp := (getN s y).parent
      let s := updParent s x yp
      let s :=
        if yp = s.nil then { s with root := x }
        else
          let dir := if y = (getN s yp).child 0 then 0 else 1
          updChild s yp dir x
      match (if (getN s y).red = false then delete_fixup fuel s x else some s) with
      | none => none
      | some s =>
        if y = s.nil then some s
        else
          let r := slabRemove s y
          let y_removed := r.1
          let s := r.2
          let s := if y ≠ z then updKey s z y_removed.key else s
          some s

/-- RedBlack::insert for SlabRedBlack: the BST descent loop of
src/src/slab.rs lines 327-335 (y trails x). -/
def insertDescendGo [LinearOrder T] :
    Nat → SlabState T → Nat → Nat → Nat → Option Nat
  | 0, _, _, _, _ => none
  | fuel + 1, s, z, y, x =>
    if x ≠ s.nil then
      let dir := if (getN s z).key < (getN s x).key then 0 else 1
      insertDescendGo fuel s z x ((getN s x).child dir)
    else some y

/-- RedBlack::insert for SlabRedBlack, from src/src/slab.rs lines
321-352: allocate the node, descend, link it, color it red, fix up. -/
def insert [LinearOrder T] (fuel : Nat) (s : SlabState T) (key : T) :
    Option (SlabState T) :=
  let a := slabAlloc s (Node.new key s.nil)
  let z := a.1
  let s := a.2
  match insertDescendGo fuel s z s.nil s.root with
  | none => none
  | some y =>
    let s := updParent s z y
    let s :=
      if y = s.nil then { s with root := z }
      else
        let dir := if (getN s z).key < (getN s y).key then 0 else 1
        updChild s y dir z
    let s := updRed s z true
    insert_fixup fuel s z

/-- An operation of the tree contract (section 6 of the spec): insert
a key or delete a key. -/
inductive Op (T : Type) where
  | ins : T → Op T
  | del : T → Op T

/-- Run a sequence of insert and delete operations, each loop getting
the given fuel; none if any loop runs out of fuel. -/
def runOps [LinearOrder T] (fuel : Nat) :
    SlabState T → List (Op T) → Option (SlabState T)
  | s, [] => some s
  | s, op :: rest =>
    match (match op with
           | Op.ins k => insert fuel s k
           | Op.del k => delete fuel s k) with
    | none => none
    | some s => runOps fuel s rest

/-- Build a concrete arena state from an association list of nodes
(indices absent from the list hold junk), a root handle and a length;
the sentinel is index 0. -/
def buildState (l : List (Nat × Node Nat)) (root : Nat) (len : Nat) :
    SlabState Nat :=
  { nodes := fun i => (l.lookup i).getD (Node.new 0 NULL),
    vacant := [], len := len, root := root, nil := 0 }

/-- Concrete delete_fixup configuration with a black sibling whose far
child is red: sentinel 0; p = 2 is the black root with children
(x = 1, w = 3); x = 1 is black; w = 3 is black with children
(sentinel, 4); node 4 is red.  Since x is on side 0 of p, the source's
dir is 1, so w's far child (side dir) is node 4 and its near child
(side dir xor 1) is the sentinel. -/
def fixupStateFarRed : SlabState Nat :=
  buildState
    [(1, ⟨2, (0, 0), 0, false⟩), (2, ⟨0, (1, 3), 0, false⟩),
     (3, ⟨2, (0, 4), 0, false⟩), (4, ⟨3, (0, 0), 0, true⟩)] 2 5

/-- Concrete delete_fixup configuration with a black sibling whose
near child is red and far child black: sentinel 0; p = 2 is the black
root with children (x = 1, w = 3); x = 1 is black; w = 3 is black with
children (4, sentinel); node 4 is red.  With the claim's convention
(dir = side of p holding x, here 0), w's dir-side (near) child is
node 4, red, and its far child is the black sentinel. -/
def fixupStateNearRed : SlabState Nat :=
  buildState
    [(1, ⟨2, (0, 0), 0, false⟩), (2, ⟨0, (1, 3), 0, false⟩),
     (3, ⟨2, (4, 0), 0, false⟩), (4, ⟨3, (0, 0), 0, true⟩)] 2 5

/-- The tree built by inserting 5, 1, 8, 7, 9 into an empty
SlabRedBlack tree (the layout asserted by the test_basic_rotation test
in src/src/slab.rs): sentinel 0; root 1 holds 5, black, with children
(2, 3); node 2 holds 1, black; node 3 holds 8, black, with children
(4, 5); node 4 holds 7, red; node 5 holds 9, red. -/
def rotationTestState : SlabState Nat :=
  buildState
    [(1, ⟨0, (2, 3), 5, false⟩), (2, ⟨1, (0, 0), 1, false⟩),
     (3, ⟨1, (4, 5), 8, false⟩), (4, ⟨3, (0, 0), 7, true⟩),
     (5, ⟨3, (0, 0), 9, true⟩)] 1 6

end SlabRB

namespace LibRB

/-- Loop of RedBlack::delete_fixup from src/slab-red-black/src/lib.rs
lines 194-200: the loop body is empty, so the state and x are passed
through unchanged; on exit x is blackened (line 199). -/
def deleteFixupGo {T : Type} :
    Nat → SlabRB.SlabState T → Nat → Option (SlabRB.SlabState T)
  | 0, _, _ => none
  | fuel + 1, s, x =>
    if x ≠ s.root ∧ (SlabRB.getN s x).red = false then
      deleteFixupGo fuel s x
    else some (SlabRB.updRed s x false)

/-- RedBlack::delete_fixup from src/slab-red-black/src/lib.rs lines
194-200. -/
def delete_fixup {T : Type} (fuel : Nat) (s : SlabRB.SlabState T) (x : Nat) :
    Option (SlabRB.SlabState T) :=
  deleteFixupGo fuel s x

end LibRB

namespace SlabRB

/-- Claim C2: evaluation of the code at a failing input.  Insert the
keys 4, 2, 6, 1, 3, then delete 4: the key 3 was inserted and never
removed, yet search(3) reports absent.  Cause: when the deleted node
has two real children, tree_successor (src/src/slab.rs line 72) passes
z itself instead of z's right child to tree_minimum, so the node
spliced out is the minimum of z's whole subtree (here the key-1 node)
and its key overwrites z's, breaking the binary-search-tree order:
the key-3 node is left in the left subtree of the new root key 1, where
the descent for 3 cannot reach it. -/
theorem search_misses_live_key_after_delete :
    (runOps 50 (new : SlabState Nat)
        [Op.ins 4, Op.ins 2, Op.ins 6, Op.ins 1, Op.ins 3, Op.del 4]).bind
      (fun s => search_ 50 s 3) = some none := by
  decide

/-- Claim C3: evaluation of the code around the failing input.  The
RedBlack trait (src/src/redblack.rs) declares delete with return type
Option of T, but SlabRedBlack::delete (src/src/slab.rs line 273)
returns nothing, so no removed key is ever produced; the embedding
accordingly yields only a state.  The mutation side of the claim does
hold and is evaluated here: with the duplicate key 1 inserted twice,
one delete removes exactly one matching node (search still finds the
other, and exactly one arena slot has been freed); a second delete
removes the last one. -/
theorem delete_removes_exactly_one_duplicate :
    ((runOps 50 (new : SlabState Nat) [Op.ins 1, Op.ins 1, Op.del 1]).bind
        fun s => search_ 50 s 1) = some (some 2) ∧
      ((runOps 50 (new : SlabState Nat) [Op.ins 1, Op.ins 1, Op.del 1]).map
        fun s => s.vacant) = some [1] ∧
      ((runOps 50 (new : SlabState Nat)
          [Op.ins 1, Op.ins 1, Op.del 1, Op.del 1]).bind
        fun s => search_ 50 s 1) = some none ∧
      ((runOps 50 (new : SlabState Nat)
          [Op.ins 1, Op.ins 1, Op.del 1, Op.del 1]).map
        fun s => s.vacant) = some [2, 1] := by
  refine ⟨by decide, by decide, by decide, by decide⟩

/-- Claim C4: evaluation of the code at a failing input.  Insert 2,
then 1, then 3 (arena indices 1, 2, 3; index 0 is the sentinel), then
delete 2.  The found node (index 1) has two real children, so per the
claim the node physically unlinked and deallocated should be its
in-order successor, the key-3 node at index 3.  The code instead
unlinks and frees index 2, the key-1 node (the minimum of the whole
subtree, because tree_successor passes z rather than z's right child
to tree_minimum), and copies that node's key 1 into the found node:
afterwards the free list is [2], the root is index 1 with key 1 and
children (sentinel, 3), and the key-3 node is still allocated.  The
first conjunct records the pre-delete layout (index 2 holds key 1,
index 3 holds key 3, nothing freed). -/
theorem delete_unlinks_minimum_not_successor :
    ((runOps 50 (new : SlabState Nat) [Op.ins 2, Op.ins 1, Op.ins 3]).map
        fun s => ((getN s 1).key, (getN s 2).key, (getN s 3).key, s.vacant))
        = some (2, 1, 3, []) ∧
      ((runOps 50 (new : SlabState Nat)
          [Op.ins 2, Op.ins 1, Op.ins 3, Op.del 2]).map
        fun s => (s.vacant, s.root, (getN s 1).key, (getN s 1).children,
          (getN s 3).key)) = some ([2], 1, 1, (0, 3), 3) := by
  refine ⟨by decide, by decide⟩

/-- Claim C5 (counterexample to the claim as stated): in
fixupStateNearRed the claim's near-red case applies to x = 1 (p = 2,
dir = 0 in the claim's convention, sibling w = 3 black, near child
w.children[0] = 4 red, far child the black sentinel).  The claim
prescribes for this configuration: w takes p's color, p becomes black,
the near child becomes black, rotate(p, dir) is performed, and the
loop terminates — rotate(p, 0) promotes w = 3 over p, so p's parent
would end up equal to 3.  Running the transcription of the source,
p's parent ends up equal to 4 (the code instead treats near-red
far-black as the rotate-at-w case and then promotes the recomputed
sibling 4 over p), which is different from 3: the claim is false at
this input. -/
theorem delete_fixup_near_red_case_counterexample :
    (getN fixupStateNearRed 1).red = false ∧ 1 ≠ fixupStateNearRed.root ∧
      (getN fixupStateNearRed 1).parent = 2 ∧
      (getN fixupStateNearRed 2).child 0 = 1 ∧
      (getN fixupStateNearRed 2).child 1 = 3 ∧
      (getN fixupStateNearRed 3).red = false ∧
      (getN fixupStateNearRed 3).child 0 = 4 ∧
      (getN fixupStateNearRed 4).red = true ∧
      (getN fixupStateNearRed 3).child 1 = 0 ∧
      (getN fixupStateNearRed 0).red = false ∧
      (delete_fixup 10 fixupStateNearRed 1).map
        (fun t => ((getN t 2).parent, t.root)) = some (4, 4) ∧
      (4 : Nat) ≠ 3 := by
  decide

/-- Claim C5 (amended): the conditions of the two black-sibling cases
are the reverse of the claim's.  Stated with the source's dir
convention, where dir is the side of p holding the sibling w (the
claim's dir is this dir xor 1, so the source's rotate(w, dir) is the
claim's rotate(w, dir^1) and the source's rotate(p, dir xor 1) is the
claim's rotate(p, dir)): with w black, wc = w's far child (on side
dir) and wo = w's near child (on side dir xor 1), (a) when the far
child wc is black and the near child wo is red, the NEAR child is
recolored black, w red, and the rotation at w is performed, after
which w is recomputed and control falls through to the far-red case,
the loop then terminating; (b) when the far child wc is red, w takes
p's color, p becomes black, the FAR child becomes black, the rotation
at p is performed, and the loop terminates (x is set to the root,
which the loop exit then blackens). -/
theorem delete_fixup_black_sibling_cases {T : Type} [LinearOrder T]
    (f : Nat) (s : SlabState T) (x p dir w wc wo : Nat)
    (hx : x ≠ s.root) (hxb : (getN s x).red = false)
    (hp : p = (getN s x).parent)
    (hdir : dir = if x = (getN s p).child 0 then 1 else 0)
    (hw : w = (getN s p).child dir)
    (hwb : (getN s w).red = false)
    (hwc : wc = (getN s w).child dir)
    (hwo : wo = (getN s w).child (dir ^^^ 1)) :
    ((getN s wc).red = false → (getN s wo).red = true →
      deleteFixupGo (f + 2) s x =
        some (let sA := rotate (updRed (updRed s wo false) w true) w dir
              let w2 := (getN sA p).child dir
              let wc2 := (getN sA w2).child dir
              let sB := rotate (updRed (updRed (updRed sA w2 (getN sA p).red) p
                false) wc2 false) p (dir ^^^ 1)
              updRed sB sB.root false)) ∧
    ((getN s wc).red = true →
      deleteFixupGo (f + 2) s x =
        some (let sB := rotate (updRed (updRed (updRed s w (getN s p).red) p
                false) wc false) p (dir ^^^ 1)
              updRed sB sB.root false)) := by
  subst hwc hwo hw hdir hp
  constructor
  · intro h3 h4
    by_cases hx0 : x = (getN s (getN s x).parent).child 0
    · have hdir1 : (if x = (getN s (getN s x).parent).child 0 then (1:Nat) else 0) = 1 :=
        if_pos hx0
      have e21 : (1 : Nat) ^^^ 1 = 0 := rfl
      simp only [hdir1, e21] at hwb h3 h4 ⊢
      simp [deleteFixupGo, deleteFixupIter, hdir1, e21, hwb, h3, h4,
        if_pos (And.intro hx hxb)]
    · have hdir0 : (if x = (getN s (getN s x).parent).child 0 then (1:Nat) else 0) = 0 :=
        if_neg hx0
      have e01 : (0 : Nat) ^^^ 1 = 1 := rfl
      simp only [hdir0, e01] at hwb h3 h4 ⊢
      simp [deleteFixupGo, deleteFixupIter, hdir0, e01, hwb, h3, h4,
        if_pos (And.intro hx hxb)]
  · intro h5
    by_cases hx0 : x = (getN s (getN s x).parent).child 0
    · have hdir1 : (if x = (getN s (getN s x).parent).child 0 then (1:Nat) else 0) = 1 :=
        if_pos hx0
      have e21 : (1 : Nat) ^^^ 1 = 0 := rfl
      simp only [hdir1] at hwb h5 ⊢
      simp [deleteFixupGo, deleteFixupIter, hdir1, e21, hwb, h5,
        if_pos (And.intro hx hxb)]
    · have hdir0 : (if x = (getN s (getN s x).parent).child 0 then (1:Nat) else 0) = 0 :=
        if_neg hx0
      have e01 : (0 : Nat) ^^^ 1 = 1 := rfl
      simp only [hdir0] at hwb h5 ⊢
      simp [deleteFixupGo, deleteFixupIter, hdir0, e01, hwb, h5,
        if_pos (And.intro hx hxb)]

/-- Witness for C5 (amended): the far-red case applied to
fixupStateFarRed (x = 1, p = 2, source dir = 1, w = 3, far child
wc = 4 red, near child the sentinel). -/
theorem delete_fixup_black_sibling_cases_witness :
    (getN fixupStateFarRed 4).red = true ∧
      deleteFixupGo 10 fixupStateFarRed 1 =
        some (let sB := rotate (updRed (updRed (updRed fixupStateFarRed 3
                (getN fixupStateFarRed 2).red) 2 false) 4 false) 2 (1 ^^^ 1)
              updRed sB sB.root false) :=
  ⟨by decide,
    (delete_fixup_black_sibling_cases 8 fixupStateFarRed 1 2 1 3 4 0
      (by decide) (by decide) (by decide) (by decide) (by decide) (by decide)
      (by decide) (by decide)).2 (by decide)⟩

/-- Claim C6: deleting a key on which search reports absent (the BST
descent reaches the sentinel without an equality hit) returns the
state completely unchanged: same topology, colors, keys and storage.
This is the early return in src/src/slab.rs lines 274-279. -/
theorem delete_absent_is_noop {T : Type} [LinearOrder T]
    (fuel : Nat) (s : SlabState T) (k : T)
    (h : search_ fuel s k = some none) :
    delete fuel s k = some s := by
  unfold delete
  rw [h]

/-- Witness for C6: deleting key 7 from the freshly built empty tree
leaves it untouched. -/
theorem delete_absent_is_noop_witness :
    search_ 5 (new : SlabState Nat) 7 = some none ∧
      delete 5 (new : SlabState Nat) 7 = some new :=
  ⟨by decide, delete_absent_is_noop 5 new 7 (by decide)⟩


/-- Reading an index after writing one: the written node if the
indices agree, the old node otherwise. -/
theorem getN_setNode {T : Type} (s : SlabState T) (i j : Nat) (n : Node T) :
    getN (setNode s i n) j = if j = i then n else getN s j := rfl

/-- setNode does not change the sentinel handle. -/
theorem nil_setNode {T : Type} (s : SlabState T) (i : Nat) (n : Node T) :
    (setNode s i n).nil = s.nil := rfl

/-- setNode does not change the root handle. -/
theorem root_setNode {T : Type} (s : SlabState T) (i : Nat) (n : Node T) :
    (setNode s i n).root = s.root := rfl

set_option maxHeartbeats 12000000 in
/-- Claim C8: rotation is its own inverse.  For a state whose links
are coherent around a non-sentinel node x with a real right child y
(y's parent is x; the subtree child B = y.children[0], if real, points
back at y and is distinct from x, y and x's parent xp; xp, if real,
is distinct from x and y and holds x in one of its child slots, the
other slot not holding y; if xp is the sentinel then x is the root):
rotate(x, 0) makes y the parent of x, and rotate(y, 1) afterwards
restores every node's fields (parent, children, key, color) and the
root exactly. -/
theorem rotate_rotate_inverse {T : Type} (s : SlabState T) (x y B xp : Nat)
    (hy : y = (getN s x).child 1)
    (hB : B = (getN s y).child 0)
    (hxp : xp = (getN s x).parent)
    (hxnil : x ≠ s.nil) (hynil : y ≠ s.nil) (hxy : x ≠ y)
    (hyp : (getN s y).parent = x)
    (hBh : B ≠ s.nil → (getN s B).parent = y ∧ B ≠ x ∧ B ≠ y ∧ B ≠ xp)
    (hxph : xp ≠ s.nil → xp ≠ x ∧ xp ≠ y ∧
      ((getN s xp).child 0 = x ∨
        ((getN s xp).child 0 ≠ x ∧ (getN s xp).child 1 = x ∧
          (getN s xp).child 0 ≠ y)))
    (hroot : xp = s.nil → s.root = x) :
    (getN (rotate s x 0) x).parent = y ∧
      (∀ i, getN (rotate (rotate s x 0) y 1) i = getN s i) ∧
      (rotate (rotate s x 0) y 1).root = s.root := by
  simp only [Node.child, getN] at hy hB hxp hyp hBh hxph
  norm_num at hy hB hxph
  refine ⟨?_, ?_, ?_⟩
  · simp [rotate, updChild, updParent, getN, setNode, Node.child,
      Node.setChild, ← hy]
  · intro i
    by_cases hBnil : B = s.nil
    · by_cases hxpnil : xp = s.nil
      · have hgB : (B = s.nil) = True := eq_true hBnil
        have hgxp : (xp = s.nil) = True := eq_true hxpnil
        have hr : s.root = x := hroot hxpnil
        rcases eq_or_ne i x with rfl | hix
        · simp [rotate, updChild, updParent, getN, setNode, Node.child, Node.setChild, ← hy, ← hB, ← hxp, hxy, Ne.symm hxy, hyp, hgB, hgxp, hr]
          rw [hxp, hy]
        · rcases eq_or_ne i y with rfl | hiy
          · simp [rotate, updChild, updParent, getN, setNode, Node.child, Node.setChild, ← hy, ← hB, ← hxp, hxy, Ne.symm hxy, hyp, hgB, hgxp, hr]
            rw [← hyp, hB]
          · simp [rotate, updChild, updParent, getN, setNode, Node.child, Node.setChild, ← hy, ← hB, ← hxp, hxy, Ne.symm hxy, hyp, hgB, hgxp, hr, hix, hiy]
      · have hgB : (B = s.nil) = True := eq_true hBnil
        obtain ⟨hxpx, hxpy, hslotd⟩ := hxph hxpnil
        rcases hslotd with hslot | ⟨hslot0, hslot1, hslot0y⟩
        · rcases eq_or_ne i x with rfl | hix
          · simp [rotate, updChild, updParent, getN, setNode, Node.child, Node.setChild, ← hy, ← hB, ← hxp, hxy, Ne.symm hxy, hyp, hgB, hxpnil, hxpx, hxpy, Ne.symm hxpx, Ne.symm hxpy, hslot]
            rw [hxp, hy]
          · rcases eq_or_ne i y with rfl | hiy
            · simp [rotate, updChild, updParent, getN, setNode, Node.child, Node.setChild, ← hy, ← hB, ← hxp, hxy, Ne.symm hxy, hyp, hgB, hxpnil, hxpx, hxpy, Ne.symm hxpx, Ne.symm hxpy, hslot]
              rw [← hyp, hB]
            · rcases eq_or_ne i xp with rfl | hixp
              · simp [rotate, updChild, updParent, getN, setNode, Node.child, Node.setChild, ← hy, ← hB, ← hxp, hxy, Ne.symm hxy, hyp, hgB, hxpnil, hxpx, hxpy, Ne.symm hxpx, Ne.symm hxpy, hslot]
                rw [← hslot]
              · simp [rotate, updChild, updParent, getN, setNode, Node.child, Node.setChild, ← hy, ← hB, ← hxp, hxy, Ne.symm hxy, hyp, hgB, hxpnil, hxpx, hxpy, Ne.symm hxpx, Ne.symm hxpy, hslot, hix, hiy, hixp]
        · rcases eq_or_ne i x with rfl | hix
          · simp [rotate, updChild, updParent, getN, setNode, Node.child, Node.setChild, ← hy, ← hB, ← hxp, hxy, Ne.symm hxy, hyp, hgB, hxpnil, hxpx, hxpy, Ne.symm hxpx, Ne.symm hxpy, hslot0, hslot1, hslot0y]
            rw [hxp, hy]
          · rcases eq_or_ne i y with rfl | hiy
            · simp [rotate, updChild, updParent, getN, setNode, Node.child, Node.setChild, ← hy, ← hB, ← hxp, hxy, Ne.symm hxy, hyp, hgB, hxpnil, hxpx, hxpy, Ne.symm hxpx, Ne.symm hxpy, hslot0, hslot1, hslot0y]
              rw [← hyp, hB]
            · rcases eq_or_ne i xp with rfl | hixp
              · simp [rotate, updChild, updParent, getN, setNode, Node.child, Node.setChild, ← hy, ← hB, ← hxp, hxy, Ne.symm hxy, hyp, hgB, hxpnil, hxpx, hxpy, Ne.symm hxpx, Ne.symm hxpy, hslot0, hslot1, hslot0y]
                rw [← hslot1]
              · simp [rotate, updChild, updParent, getN, setNode, Node.child, Node.setChild, ← hy, ← hB, ← hxp, hxy, Ne.symm hxy, hyp, hgB, hxpnil, hxpx, hxpy, Ne.symm hxpx, Ne.symm hxpy, hslot0, hslot1, hslot0y, hix, hiy, hixp]
    · by_cases hxpnil : xp = s.nil
      · obtain ⟨hBp, hBx, hBy, hBxp⟩ := hBh hBnil
        have hgxp : (xp = s.nil) = True := eq_true hxpnil
        have hr : s.root = x := hroot hxpnil
        rcases eq_or_ne i x with rfl | hix
        · simp [rotate, updChild, updParent, getN, setNode, Node.child, Node.setChild, ← hy, ← hB, ← hxp, hxy, Ne.symm hxy, hyp, hBnil, hBp, hBx, hBy, Ne.symm hBx, Ne.symm hBy, hgxp, hr]
          rw [hxp, hy]
        · rcases eq_or_ne i y with rfl | hiy
          · simp [rotate, updChild, updParent, getN, setNode, Node.child, Node.setChild, ← hy, ← hB, ← hxp, hxy, Ne.symm hxy, hyp, hBnil, hBp, hBx, hBy, Ne.symm hBx, Ne.symm hBy, hgxp, hr]
            rw [← hyp, hB]
          · rcases eq_or_ne i B with rfl | hiB
            · simp [rotate, updChild, updParent, getN, setNode, Node.child, Node.setChild, ← hy, ← hB, ← hxp, hxy, Ne.symm hxy, hyp, hBnil, hBp, hBx, hBy, Ne.symm hBx, Ne.symm hBy, hgxp, hr]
              rw [← hBp]
            · simp [rotate, updChild, updParent, getN, setNode, Node.child, Node.setChild, ← hy, ← hB, ← hxp, hxy, Ne.symm hxy, hyp, hBnil, hBp, hBx, hBy, Ne.symm hBx, Ne.symm hBy, hgxp, hr, hix, hiy, hiB]
      · obtain ⟨hBp, hBx, hBy, hBxp⟩ := hBh hBnil
        obtain ⟨hxpx, hxpy, hslotd⟩ := hxph hxpnil
        rcases hslotd with hslot | ⟨hslot0, hslot1, hslot0y⟩
        · rcases eq_or_ne i x with rfl | hix
          · simp [rotate, updChild, updParent, getN, setNode, Node.child, Node.setChild, ← hy, ← hB, ← hxp, hxy, Ne.symm hxy, hyp, hBnil, hBp, hBx, hBy, Ne.symm hBx, Ne.symm hBy, hBxp, Ne.symm hBxp, hxpnil, hxpx, hxpy, Ne.symm hxpx, Ne.symm hxpy, hslot]
            rw [hxp, hy]
          · rcases eq_or_ne i y with rfl | hiy
            · simp [rotate, updChild, updParent, getN, setNode, Node.child, Node.setChild, ← hy, ← hB, ← hxp, hxy, Ne.symm hxy, hyp, hBnil, hBp, hBx, hBy, Ne.symm hBx, Ne.symm hBy, hBxp, Ne.symm hBxp, hxpnil, hxpx, hxpy, Ne.symm hxpx, Ne.symm hxpy, hslot]
              rw [← hyp, hB]
            · rcases eq_or_ne i B with rfl | hiB
              · simp [rotate, updChild, updParent, getN, setNode, Node.child, Node.setChild, ← hy, ← hB, ← hxp, hxy, Ne.symm hxy, hyp, hBnil, hBp, hBx, hBy, Ne.symm hBx, Ne.symm hBy, hBxp, Ne.symm hBxp, hxpnil, hxpx, hxpy, Ne.symm hxpx, Ne.symm hxpy, hslot]
                rw [← hBp]
              · rcases eq_or_ne i xp with rfl | hixp
                · simp [rotate, updChild, updParent, getN, setNode, Node.child, Node.setChild, ← hy, ← hB, ← hxp, hxy, Ne.symm hxy, hyp, hBnil, hBp, hBx, hBy, Ne.symm hBx, Ne.symm hBy, hBxp, Ne.symm hBxp, hxpnil, hxpx, hxpy, Ne.symm hxpx, Ne.symm hxpy, hslot]
                  rw [← hslot]
                · simp [rotate, updChild, updParent, getN, setNode, Node.child, Node.setChild, ← hy, ← hB, ← hxp, hxy, Ne.symm hxy, hyp, hBnil, hBp, hBx, hBy, Ne.symm hBx, Ne.symm hBy, hBxp, Ne.symm hBxp, hxpnil, hxpx, hxpy, Ne.symm hxpx, Ne.symm hxpy, hslot, hix, hiy, hiB, hixp]
        · rcases eq_or_ne i x with rfl | hix
          · simp [rotate, updChild, updParent, getN, setNode, Node.child, Node.setChild, ← hy, ← hB, ← hxp, hxy, Ne.symm hxy, hyp, hBnil, hBp, hBx, hBy, Ne.symm hBx, Ne.symm hBy, hBxp, Ne.symm hBxp, hxpnil, hxpx, hxpy, Ne.symm hxpx, Ne.symm hxpy, hslot0, hslot1, hslot0y]
            rw [hxp, hy]
          · rcases eq_or_ne i y with rfl | hiy
            · simp [rotate, updChild, updParent, getN, setNode, Node.child, Node.setChild, ← hy, ← hB, ← hxp, hxy, Ne.symm hxy, hyp, hBnil, hBp, hBx, hBy, Ne.symm hBx, Ne.symm hBy, hBxp, Ne.symm hBxp, hxpnil, hxpx, hxpy, Ne.symm hxpx, Ne.symm hxpy, hslot0, hslot1, hslot0y]
              rw [← hyp, hB]
            · rcases eq_or_ne i B with rfl | hiB
              · simp [rotate, updChild, updParent, getN, setNode, Node.child, Node.setChild, ← hy, ← hB, ← hxp, hxy, Ne.symm hxy, hyp, hBnil, hBp, hBx, hBy, Ne.symm hBx, Ne.symm hBy, hBxp, Ne.symm hBxp, hxpnil, hxpx, hxpy, Ne.symm hxpx, Ne.symm hxpy, hslot0, hslot1, hslot0y]
                rw [← hBp]
              · rcases eq_or_ne i xp with rfl | hixp
                · simp [rotate, updChild, updParent, getN, setNode, Node.child, Node.setChild, ← hy, ← hB, ← hxp, hxy, Ne.symm hxy, hyp, hBnil, hBp, hBx, hBy, Ne.symm hBx, Ne.symm hBy, hBxp, Ne.symm hBxp, hxpnil, hxpx, hxpy, Ne.symm hxpx, Ne.symm hxpy, hslot0, hslot1, hslot0y]
                  rw [← hslot1]
                · simp [rotate, updChild, updParent, getN, setNode, Node.child, Node.setChild, ← hy, ← hB, ← hxp, hxy, Ne.symm hxy, hyp, hBnil, hBp, hBx, hBy, Ne.symm hBx, Ne.symm hBy, hBxp, Ne.symm hBxp, hxpnil, hxpx, hxpy, Ne.symm hxpx, Ne.symm hxpy, hslot0, hslot1, hslot0y, hix, hiy, hiB, hixp]
  · by_cases hBnil : B = s.nil
    · by_cases hxpnil : xp = s.nil
      · have hgB : (B = s.nil) = True := eq_true hBnil
        have hgxp : (xp = s.nil) = True := eq_true hxpnil
        have hr : s.root = x := hroot hxpnil
        simp [rotate, updChild, updParent, getN, setNode, Node.child, Node.setChild, ← hy, ← hB, ← hxp, hxy, Ne.symm hxy, hyp, hgB, hgxp, hr]
      · have hgB : (B = s.nil) = True := eq_true hBnil
        obtain ⟨hxpx, hxpy, hslotd⟩ := hxph hxpnil
        rcases hslotd with hslot | ⟨hslot0, hslot1, hslot0y⟩
        · simp [rotate, updChild, updParent, getN, setNode, Node.child, Node.setChild, ← hy, ← hB, ← hxp, hxy, Ne.symm hxy, hyp, hgB, hxpnil, hxpx, hxpy, Ne.symm hxpx, Ne.symm hxpy, hslot]
        · simp [rotate, updChild, updParent, getN, setNode, Node.child, Node.setChild, ← hy, ← hB, ← hxp, hxy, Ne.symm hxy, hyp, hgB, hxpnil, hxpx, hxpy, Ne.symm hxpx, Ne.symm hxpy, hslot0, hslot1, hslot0y]
    · by_cases hxpnil : xp = s.nil
      · obtain ⟨hBp, hBx, hBy, hBxp⟩ := hBh hBnil
        have hgxp : (xp = s.nil) = True := eq_true hxpnil
        have hr : s.root = x := hroot hxpnil
        simp [rotate, updChild, updParent, getN, setNode, Node.child, Node.setChild, ← hy, ← hB, ← hxp, hxy, Ne.symm hxy, hyp, hBnil, hBp, hBx, hBy, Ne.symm hBx, Ne.symm hBy, hgxp, hr]
      · obtain ⟨hBp, hBx, hBy, hBxp⟩ := hBh hBnil
        obtain ⟨hxpx, hxpy, hslotd⟩ := hxph hxpnil
        rcases hslotd with hslot | ⟨hslot0, hslot1, hslot0y⟩
        · simp [rotate, updChild, updParent, getN, setNode, Node.child, Node.setChild, ← hy, ← hB, ← hxp, hxy, Ne.symm hxy, hyp, hBnil, hBp, hBx, hBy, Ne.symm hBx, Ne.symm hBy, hBxp, Ne.symm hBxp, hxpnil, hxpx, hxpy, Ne.symm hxpx, Ne.symm hxpy, hslot]
        · simp [rotate, updChild, updParent, getN, setNode, Node.child, Node.setChild, ← hy, ← hB, ← hxp, hxy, Ne.symm hxy, hyp, hBnil, hBp, hBx, hBy, Ne.symm hBx, Ne.symm hBy, hBxp, Ne.symm hBxp, hxpnil, hxpx, hxpy, Ne.symm hxpx, Ne.symm hxpy, hslot0, hslot1, hslot0y]

/-- Witness for C8: the concrete five-node tree of the
test_basic_rotation test (insert 5, 1, 8, 7, 9): x = 1 (the root,
key 5), y = 3 (key 8), B = 4 (key 7), xp = 0 (the sentinel);
rotate(1, 0) then rotate(3, 1) restores every node and the root. -/
theorem rotate_rotate_inverse_witness :
    (getN (rotate rotationTestState 1 0) 1).parent = 3 ∧
      (∀ i, getN (rotate (rotate rotationTestState 1 0) 3 1) i =
        getN rotationTestState i) ∧
      (rotate (rotate rotationTestState 1 0) 3 1).root =
        rotationTestState.root :=
  rotate_rotate_inverse rotationTestState 1 3 4 0 (by decide) (by decide)
    (by decide) (by decide) (by decide) (by decide) (by decide)
    (by decide) (by decide) (by decide)

end SlabRB

namespace LibRB

/-- Claim C9: the delete_fixup of src/slab-red-black/src/lib.rs has an
empty loop body, so whenever the loop is entered (x differs from the
root and x is black) it never exits: for every amount of fuel the
transcription returns none.  This contradicts the claim that the
delete_fixup loop always exits. -/
theorem delete_fixup_never_exits {T : Type}
    (fuel : Nat) (s : SlabRB.SlabState T) (x : Nat)
    (hroot : x ≠ s.root) (hblack : (SlabRB.getN s x).red = false) :
    delete_fixup fuel s x = none := by
  induction fuel with
  | zero => rfl
  | succ n ih =>
    unfold delete_fixup deleteFixupGo
    rw [if_pos ⟨hroot, hblack⟩]
    exact ih

/-- Witness for C9: invoking the lib.rs delete_fixup on a two-node
tree at the black sentinel (as the splice of a black node would) loops
forever; with fuel 1000 it still has not exited. -/
theorem delete_fixup_never_exits_witness :
    (0 : Nat) ≠ (SlabRB.buildState [(1, SlabRB.Node.new 5 0)] 1 2).root ∧
      (SlabRB.getN (SlabRB.buildState [(1, SlabRB.Node.new 5 0)] 1 2) 0).red = false ∧
      delete_fixup 1000 (SlabRB.buildState [(1, SlabRB.Node.new 5 0)] 1 2) 0 = none :=
  ⟨by decide, by decide,
    delete_fixup_never_exits 1000 _ 0 (by decide) (by decide)⟩

end LibRB
